import Mathlib

/-!
Verification of the WebUntis notification bot's change-detection core:
a shallow embedding of the entity model (`src/untis/entries.rs`), the row
resolver (`src/api/entries/row.rs`), the lesson projector (`src/extract.rs`),
the diff engine (`src/diff.rs`) and the poll-cycle controller / driver loop
(`src/main.rs`), together with theorems settling the specified properties.

Conventions of the embedding: chrono dates and timestamps become integers
(only equality and ordering of distinct values matter to the core);
`anyhow::Result` becomes `Except String`; the Discord notification sink is
modelled as a pure log of `Notification` values, since delivery is
fire-and-forget from the core's point of view.
-/

namespace WebUntis

/-- Stands in for chrono's NaiveDate (days since some epoch). -/
abbrev NaiveDate := Int

/-- Stands in for chrono's NaiveDateTime (a naive timestamp). -/
abbrev NaiveDateTime := Int

/-- The `Status` enum of `src/untis/entries.rs`. -/
inductive Status where
  | NoData
  | NotAllowed
  | Regular
  | Added
  | Changed
  | Removed
  | Cancelled
deriving DecidableEq

/-- The `fmt::Display` impl for `Status` in `src/untis/entries.rs`. -/
def Status.display : Status → String
  | Status.NoData => "No Data"
  | Status.NotAllowed => "Not Allowed"
  | Status.Regular => "Regular"
  | Status.Added => "Added"
  | Status.Changed => "Changed"
  | Status.Removed => "Removed"
  | Status.Cancelled => "Cancelled"

/-- `Status::is_normal` from `src/untis/entries.rs`. -/
def Status.is_normal (s : Status) : Bool :=
  match s with
  | Status.NoData => true
  | Status.NotAllowed => true
  | Status.Regular => true
  | _ => false

/-- The `EntryType` enum of `src/untis/entries.rs`. -/
inductive EntryType where
  | NormalTeachingPeriod
  | Exam
  | Event
deriving DecidableEq

/-- The `EntryTextType` enum of `src/untis/entries.rs`. -/
inductive EntryTextType where
  | LessonInfo
  | SubstitutionText
deriving DecidableEq

/-- The `RowType` enum of `src/untis/entries.rs`. -/
inductive RowType where
  | Subject
  | Teacher
  | Room
  | Info
deriving DecidableEq

/-- The derived `Debug` rendering of `RowType`, as used by error messages. -/
def RowType.debugStr : RowType → String
  | RowType.Subject => "Subject"
  | RowType.Teacher => "Teacher"
  | RowType.Room => "Room"
  | RowType.Info => "Info"

/-- The `Duration` struct of `src/untis/entries.rs`. -/
structure Duration where
  start : NaiveDateTime
  «end» : NaiveDateTime
deriving DecidableEq

/-- The `Row` struct of `src/untis/entries.rs`. -/
structure Row where
  row_type : RowType
  status : Status
  short_name : String
  long_name : String
  display_name : String
deriving DecidableEq

/-- The `RowWrapper` struct of `src/untis/entries.rs`. -/
structure RowWrapper where
  current : Option Row
  removed : Option Row
deriving DecidableEq

/-- The `EntryText` struct of `src/untis/entries.rs`. -/
structure EntryText where
  text_type : EntryTextType
  text : String
deriving DecidableEq

/-- The `GridEntry` struct of `src/untis/entries.rs`. -/
structure GridEntry where
  duration : Duration
  entry_type : EntryType
  status : Status
  notes_all : String
  position1 : List RowWrapper
  position2 : List RowWrapper
  position3 : List RowWrapper
  texts : List EntryText
  lesson_text : String
  lesson_info : String
  substitution_text : String
deriving DecidableEq

/-- The `Day` struct of `src/untis/entries.rs`. -/
structure Day where
  date : NaiveDate
  status : Status
  grid_entries : List GridEntry
deriving DecidableEq

/-- The `LessonInfo` struct of `src/lib.rs`. -/
structure LessonInfo where
  status : Status
  datetime : NaiveDateTime
  subject : String
  subject_status : Status
  teacher : String
  teacher_status : Status
  room : String
  room_status : Status
  lesson_info : Option String
  lesson_text : Option String
  substitution_text : Option String
  notes : Option String
  texts : List String
deriving DecidableEq

/-- `Result::is_ok`, made structural so that terms evaluate in the kernel. -/
def exceptIsOk : Except String α → Bool
  | Except.ok _ => true
  | Except.error _ => false

/-- `extract_one` from `src/api/entries/row.rs`: a position must hold exactly
one slot. -/
def extract_one (position_n : List RowWrapper) : Except String RowWrapper :=
  match position_n with
  | [] => Except.error "Row is empty"
  | [w] => Except.ok w
  | l => Except.error ("Row has " ++ toString l.length ++ " elements (expected exactly one)")

/-- `extract_row_with_status` from `src/api/entries/row.rs`: prefer `current`,
fall back to `removed` flagged as removed. -/
def extract_row_with_status (row_wrapper : RowWrapper) : Except String (Row × Bool) :=
  match row_wrapper.current with
  | some current => Except.ok (current, false)
  | none =>
    match row_wrapper.removed with
    | some removed => Except.ok (removed, true)
    | none => Except.error "RowWrapper has neither current nor removed Row"

/-- `ensure_not_removed` from `src/api/entries/row.rs`. -/
def ensure_not_removed (rb : Row × Bool) : Except String Row :=
  if rb.2 then Except.error "Row was removed" else Except.ok rb.1

/-- `assert_row_type` from `src/api/entries/row.rs`. -/
def assert_row_type (rb : Row × Bool) (expected_type : RowType) : Except String (Row × Bool) :=
  if rb.1.row_type ≠ expected_type then
    Except.error ("Expected row type " ++ expected_type.debugStr ++ " but got " ++ rb.1.row_type.debugStr)
  else
    Except.ok rb

/-- `extract_one_with_type` from `src/api/entries/row.rs`. -/
def extract_one_with_type (position : List RowWrapper) (expected_type : RowType) :
    Except String (Row × Bool) :=
  match extract_one position with
  | Except.error e => Except.error e
  | Except.ok wrapper =>
    match extract_row_with_status wrapper with
    | Except.error e => Except.error e
    | Except.ok rb => assert_row_type rb expected_type

/-- `GridEntry::info_maybe_removed` from `src/api/entries/row.rs`. -/
def GridEntry.info_maybe_removed (e : GridEntry) : Except String (Row × Bool) :=
  extract_one_with_type e.position1 RowType.Info

/-- `GridEntry::info` from `src/api/entries/row.rs`. -/
def GridEntry.info (e : GridEntry) : Except String Row :=
  match e.info_maybe_removed with
  | Except.error er => Except.error er
  | Except.ok rb => ensure_not_removed rb

/-- `GridEntry::subject_maybe_removed` from `src/api/entries/row.rs`. -/
def GridEntry.subject_maybe_removed (e : GridEntry) : Except String (Row × Bool) :=
  extract_one_with_type e.position1 RowType.Subject

/-- `GridEntry::subject` from `src/api/entries/row.rs`. -/
def GridEntry.subject (e : GridEntry) : Except String Row :=
  match e.subject_maybe_removed with
  | Except.error er => Except.error er
  | Except.ok rb => ensure_not_removed rb

/-- `GridEntry::teacher_maybe_removed` from `src/api/entries/row.rs`. -/
def GridEntry.teacher_maybe_removed (e : GridEntry) : Except String (Row × Bool) :=
  extract_one_with_type e.position2 RowType.Teacher

/-- `GridEntry::teacher` from `src/api/entries/row.rs`. -/
def GridEntry.teacher (e : GridEntry) : Except String Row :=
  match e.teacher_maybe_removed with
  | Except.error er => Except.error er
  | Except.ok rb => ensure_not_removed rb

/-- `GridEntry::room_maybe_removed` from `src/api/entries/row.rs`. -/
def GridEntry.room_maybe_removed (e : GridEntry) : Except String (Row × Bool) :=
  extract_one_with_type e.position3 RowType.Room

/-- `GridEntry::room` from `src/api/entries/row.rs`. -/
def GridEntry.room (e : GridEntry) : Except String Row :=
  match e.room_maybe_removed with
  | Except.error er => Except.error er
  | Except.ok rb => ensure_not_removed rb

/-- Rust's `str::trim`, embedded structurally over the character list so
that projections evaluate in the kernel. -/
def str_trim (s : String) : String :=
  String.mk (((s.data.dropWhile Char.isWhitespace).reverse.dropWhile Char.isWhitespace).reverse)

/-- `normalize_str` from `src/extract.rs`: trimmed string, empty to `None`. -/
def normalize_str (string : String) : Option String :=
  let s := str_trim string
  if s = "" then none else some s

/-- `extract_lesson_info` from `src/extract.rs`. -/
def extract_lesson_info (lesson : GridEntry) : Except String (Option LessonInfo) :=
  if exceptIsOk lesson.info then Except.ok none
  else
    match lesson.subject with
    | Except.error e => Except.error e
    | Except.ok subject =>
      match lesson.teacher_maybe_removed with
      | Except.error e => Except.error e
      | Except.ok teacher_rb =>
        match lesson.room with
        | Except.error e => Except.error e
        | Except.ok room =>
          Except.ok (some {
            status := lesson.status
            datetime := lesson.duration.start
            subject := subject.long_name
            subject_status := subject.status
            teacher := teacher_rb.1.long_name
            teacher_status := teacher_rb.1.status
            room := room.long_name
            room_status := room.status
            lesson_info := normalize_str lesson.lesson_info
            lesson_text := normalize_str lesson.lesson_text
            substitution_text := normalize_str lesson.substitution_text
            notes := normalize_str lesson.notes_all
            texts := lesson.texts.map EntryText.text })

/-- The per-entry fold of `extract_all_lessons` from `src/extract.rs`:
map, transpose, drop the informational entries, abort on the first error. -/
def extract_lessons_list : List GridEntry → Except String (List LessonInfo)
  | [] => Except.ok []
  | e :: rest =>
    match extract_lesson_info e with
    | Except.error er => Except.error er
    | Except.ok none => extract_lessons_list rest
    | Except.ok (some li) =>
      match extract_lessons_list rest with
      | Except.error er => Except.error er
      | Except.ok tail => Except.ok (li :: tail)

/-- `extract_all_lessons` from `src/extract.rs`. -/
def extract_all_lessons (day : Day) : Except String (List LessonInfo) :=
  extract_lessons_list day.grid_entries

/-- One webhook message sent through `DiscordClient::lesson_modification`
(`src/discord.rs`): the affected lesson, the embed title and the body. -/
structure Notification where
  info : LessonInfo
  title : String
  body : String
deriving DecidableEq

/-- `send_potential_diffs` from `src/diff.rs`, with the Discord sink modelled
as the returned list of notifications (in send order). -/
def send_potential_diffs (old new : LessonInfo) : Bool × List Notification :=
  if old = new then (false, [])
  else
    let status_notifs : List Notification :=
      if old.status ≠ new.status then
        let body := "Lesson Status changed from " ++ old.status.display ++ " to "
          ++ new.status.display ++ "."
        if new.status = Status.Cancelled ∨ new.status = Status.Removed then
          [{ info := new, title := "Lesson Cancellation", body := body }]
        else if new.status = Status.Changed then
          [{ info := new, title := "Lesson Change", body := body }]
        else []
      else []
    let subject_notifs : List Notification :=
      if old.subject_status ≠ new.subject_status ∨ old.subject ≠ new.subject then
        [{ info := new, title := "Subject Changed",
           body := "Subject changed from " ++ old.subject ++ " (" ++ old.subject_status.display
             ++ ") to " ++ new.subject ++ " (" ++ new.subject_status.display ++ ")." }]
      else []
    let teacher_notifs : List Notification :=
      if old.teacher_status ≠ new.teacher_status ∨ old.teacher ≠ new.teacher then
        [{ info := new, title := "Teacher Changed",
           body := "Teacher changed from " ++ old.teacher ++ " (" ++ old.teacher_status.display
             ++ ") to " ++ new.teacher ++ " (" ++ new.teacher_status.display ++ ")." }]
      else []
    let room_notifs : List Notification :=
      if old.room_status ≠ new.room_status ∨ old.room ≠ new.room then
        [{ info := new, title := "Room Changed",
           body := "Room changed from " ++ old.room ++ " to " ++ new.room ++ " ("
             ++ new.room_status.display ++ ")." }]
      else []
    let notes_notifs : List Notification :=
      if old.lesson_info ≠ new.lesson_info ∨ old.lesson_text ≠ new.lesson_text
          ∨ old.substitution_text ≠ new.substitution_text ∨ old.notes ≠ new.notes
          ∨ old.texts ≠ new.texts then
        [{ info := new, title := "Notes Changed", body := "" }]
      else []
    (true, status_notifs ++ subject_notifs ++ teacher_notifs ++ room_notifs ++ notes_notifs)

/-- The poll-cycle state owned by `App` in `src/main.rs` (the clients and
credentials are external collaborators and carry no comparison state). -/
structure AppState where
  prev_date : NaiveDate
  prev_lessons : Option (List LessonInfo)
deriving DecidableEq

/-- `App::iteration` from `src/main.rs`. `date` is the already computed
relevant date and `fetched` the outcome of `fetch_single_entry`; the result
is the updated state, the notifications sent, and the cycle's outcome. -/
def App.iteration (st : AppState) (date : NaiveDate) (fetched : Except String Day) :
    AppState × List Notification × Except String Unit :=
  match fetched with
  | Except.error e => (st, [], Except.error e)
  | Except.ok day =>
    match extract_all_lessons day with
    | Except.error e => (st, [], Except.error e)
    | Except.ok lessons =>
      match st.prev_lessons with
      | none => ({ prev_date := date, prev_lessons := some lessons }, [], Except.ok ())
      | some prev_lessons =>
        if st.prev_date ≠ date then
          ({ st with prev_lessons := none }, [], Except.ok ())
        else if prev_lessons.length ≠ lessons.length then
          (st, [], Except.error ("Previous and current 'day' have a different number of lessons: "
            ++ toString prev_lessons.length ++ " vs  " ++ toString lessons.length))
        else
          let diffs := (List.zip prev_lessons lessons).map fun p => send_potential_diffs p.1 p.2
          let needs_reset := diffs.any fun d => d.1
          let notifs := List.flatten (diffs.map fun d => d.2)
          ((if needs_reset then { st with prev_lessons := none } else st), notifs, Except.ok ())

/-- The `sequential_errors` update of the driver loop in `main`
(`src/main.rs`): a failed cycle increments, a successful one resets to 0. -/
def update_sequential_errors (sequential_errors : Nat) (failed : Bool) : Nat :=
  if failed then sequential_errors + 1 else 0

/-- How many cycles the driver loop of `main` (`src/main.rs`) still runs,
given the counter value and the upcoming cycle outcomes (`true` = failure):
the loop guard `sequential_errors < 5` is checked before each cycle. -/
def cyclesRun (sequential_errors : Nat) : List Bool → Nat
  | [] => 0
  | failed :: rest =>
    if 5 ≤ sequential_errors then 0
    else cyclesRun (update_sequential_errors sequential_errors failed) rest + 1

/-- The counter value of the driver loop of `main` (`src/main.rs`) after
consuming the given cycle outcomes (stopping once the guard fails). -/
def loopCounter (sequential_errors : Nat) : List Bool → Nat
  | [] => sequential_errors
  | failed :: rest =>
    if 5 ≤ sequential_errors then sequential_errors
    else loopCounter (update_sequential_errors sequential_errors failed) rest

/-- A regular row of the given type and name, for concrete instances. -/
def mkRow (t : RowType) (name : String) : Row :=
  { row_type := t, status := Status.Regular, short_name := name,
    long_name := name, display_name := name }

/-- A well-formed teaching-period entry: Math with Smith in room 101. -/
def sampleEntry : GridEntry :=
  { duration := { start := 0, «end» := 1 }
    entry_type := EntryType.NormalTeachingPeriod
    status := Status.Regular
    notes_all := ""
    position1 := [{ current := some (mkRow RowType.Subject "Math"), removed := none }]
    position2 := [{ current := some (mkRow RowType.Teacher "Smith"), removed := none }]
    position3 := [{ current := some (mkRow RowType.Room "101"), removed := none }]
    texts := []
    lesson_text := ""
    lesson_info := "  hi "
    substitution_text := "" }

/-- The projection of `sampleEntry`. -/
def sampleLesson : LessonInfo :=
  { status := Status.Regular
    datetime := 0
    subject := "Math"
    subject_status := Status.Regular
    teacher := "Smith"
    teacher_status := Status.Regular
    room := "101"
    room_status := Status.Regular
    lesson_info := some "hi"
    lesson_text := none
    substitution_text := none
    notes := none
    texts := [] }

/-- A day (date 1) holding exactly `sampleEntry`. -/
def sampleDay : Day :=
  { date := 1, status := Status.Regular, grid_entries := [sampleEntry] }

/-- A controller state holding a baseline for date 0 whose content equals
what `sampleDay` (date 1) projects to. -/
def stRollover : AppState :=
  { prev_date := 0, prev_lessons := some [sampleLesson] }

/-- `sampleEntry` with its position1 slot holding an Info row only on the
removed side. -/
def removedInfoEntry : GridEntry :=
  { sampleEntry with
    position1 := [{ current := none, removed := some (mkRow RowType.Info "Notice") }] }

/-- `sampleEntry` with a current-side Info row in position1 and invalid
(empty) teacher and room positions. -/
def currentInfoEntry : GridEntry :=
  { sampleEntry with
    position1 := [{ current := some (mkRow RowType.Info "Notice"), removed := none }]
    position2 := []
    position3 := [] }

/-- An entry whose three positions are all empty sequences. -/
def emptyPositionsEntry : GridEntry :=
  { sampleEntry with position1 := [], position2 := [], position3 := [] }

/-- `sampleLesson` with the lesson status set to Cancelled. -/
def cancelledLesson : LessonInfo :=
  { sampleLesson with status := Status.Cancelled }

/-- `sampleLesson` moved to a different start time, all else equal. -/
def shiftedLesson : LessonInfo :=
  { sampleLesson with datetime := 1 }

/-- A controller state whose baseline for date 1 holds no lessons. -/
def mismatchState : AppState :=
  { prev_date := 1, prev_lessons := some [] }

/-- A position sequence of length 0 or at least 2 always makes
`extract_one_with_type` fail, whatever the expected row type. -/
theorem extract_fails_of_len_ne_one (position : List RowWrapper) (t : RowType)
    (hlen : position.length ≠ 1) :
    ∃ msg, extract_one_with_type position t = Except.error msg := by
  match position, hlen with
  | [], _ => exact ⟨"Row is empty", rfl⟩
  | [w], h => exact absurd rfl h
  | a :: b :: rest, _ => exact ⟨_, rfl⟩

/-- `normalize_str` yields `none` exactly on strings that trim to empty. -/
theorem normalize_str_eq_none (s : String) : normalize_str s = none ↔ str_trim s = "" := by
  by_cases h : str_trim s = "" <;> simp [normalize_str, h]

/-- On strings that do not trim to empty, `normalize_str` yields the
trimmed string. -/
theorem normalize_str_of_ne (s : String) (h : str_trim s ≠ "") :
    normalize_str s = some (str_trim s) := by
  simp [normalize_str, h]

/-- Once the failure counter has reached the threshold, the driver loop
runs no cycle at all. -/
theorem cyclesRun_of_le (s : Nat) (h : 5 ≤ s) (l : List Bool) : cyclesRun s l = 0 := by
  cases l <;> simp [cyclesRun, h]

/-- Enough consecutive failures to reach the threshold make every outcome
after them unreachable. -/
theorem cyclesRun_replicate_true (n : Nat) : ∀ (s : Nat), 5 ≤ s + n → ∀ (rest : List Bool),
    cyclesRun s (List.replicate n true ++ rest) = cyclesRun s (List.replicate n true) := by
  induction n with
  | zero =>
    intro s h rest
    simp at h
    simp [List.replicate]
    rw [cyclesRun_of_le s h, cyclesRun_of_le s h]
  | succ n ih =>
    intro s h rest
    simp only [List.replicate_succ, List.cons_append, cyclesRun, List.append_eq]
    by_cases hs : 5 ≤ s
    · simp [hs]
    · simp only [hs, if_false, update_sequential_errors, if_true]
      rw [ih (s + 1) (by omega) rest]

/-- Cycle counts agree after a common prefix whenever the suffixes agree
from every counter value. -/
theorem cyclesRun_append_congr (pre : List Bool) (xs ys : List Bool)
    (h : ∀ s, cyclesRun s xs = cyclesRun s ys) : ∀ (s : Nat),
    cyclesRun s (pre ++ xs) = cyclesRun s (pre ++ ys) := by
  induction pre with
  | nil => exact h
  | cons a l ih =>
    intro s
    simp only [List.cons_append, cyclesRun, List.append_eq]
    by_cases hs : 5 ≤ s
    · simp [hs]
    · simp only [hs, if_false]
      rw [ih _]

/-- Claim C1, counterexample: with a baseline for date 0 and a fetch for
date 1 whose lesson list is identical in content to the baseline, the
poll-cycle step leaves the controller with NO baseline (it does not adopt
the fetched list), does not record the new date, and emits no
notifications — so the step does not, as claimed, adopt the new list as
the new baseline with the new date. -/
theorem date_rollover_step_adopts_nothing_cex :
    (App.iteration stRollover 1 (Except.ok sampleDay)).1.prev_lessons = none ∧
    (App.iteration stRollover 1 (Except.ok sampleDay)).1.prev_lessons ≠ some [sampleLesson] ∧
    (App.iteration stRollover 1 (Except.ok sampleDay)).1.prev_date = 0 ∧
    (App.iteration stRollover 1 (Except.ok sampleDay)).2.1 = [] := by
  decide

/-- Claim C1, amended: on a date rollover the step discards the old
baseline and emits no notifications; the newly fetched list is adopted as
the new baseline with the new date only by the immediately following
step (for the same fetch outcome), which also emits nothing. -/
theorem date_rollover_discards_then_adopts (st : AppState) (prev lessons : List LessonInfo)
    (date : NaiveDate) (day : Day)
    (hprev : st.prev_lessons = some prev) (hdate : st.prev_date ≠ date)
    (hex : extract_all_lessons day = Except.ok lessons) :
    App.iteration st date (Except.ok day) = ({ st with prev_lessons := none }, [], Except.ok ()) ∧
    App.iteration { st with prev_lessons := none } date (Except.ok day)
      = ({ prev_date := date, prev_lessons := some lessons }, [], Except.ok ()) := by
  simp only [App.iteration]
  rw [hex]
  simp [hprev, hdate]

/-- Claim C1, witness: the amended rollover behaviour at the concrete
baseline-for-date-0 state and the concrete day for date 1. -/
theorem date_rollover_discards_then_adopts_witness :
    App.iteration stRollover 1 (Except.ok sampleDay)
      = ({ stRollover with prev_lessons := none }, [], Except.ok ()) ∧
    App.iteration { stRollover with prev_lessons := none } 1 (Except.ok sampleDay)
      = ({ prev_date := 1, prev_lessons := some [sampleLesson] }, [], Except.ok ()) :=
  date_rollover_discards_then_adopts stRollover [sampleLesson] [sampleLesson] 1 sampleDay
    rfl (by decide) rfl

/-- Claim C2, counterexample: an entry whose position1 slot holds an
Info-typed row only on the removed side makes `extract_lesson_info`
fail (the strict `info` accessor rejects the removed row, and the entry is
then resolved as a Subject entry, which the Info row type violates) —
it does not return `Ok(None)` as claimed. -/
theorem removed_info_entry_errors_cex :
    extract_lesson_info removedInfoEntry
      = Except.error "Expected row type Subject but got Info" ∧
    extract_lesson_info removedInfoEntry ≠ Except.ok none := by
  refine ⟨rfl, ?_⟩
  intro h
  rw [show extract_lesson_info removedInfoEntry
    = Except.error "Expected row type Subject but got Info" from rfl] at h
  exact Except.noConfusion h

/-- Claim C2, amended: an entry whose position1 is a single slot holding an
Info-typed row on its CURRENT side projects to `Ok(None)` — never an
error — regardless of the validity of every other field (positions 2 and 3
included); an Info row present only on the removed side instead fails. -/
theorem info_row_current_side_yields_none (e : GridEntry) (w : RowWrapper) (r : Row)
    (hpos : e.position1 = [w]) (hcur : w.current = some r)
    (hty : r.row_type = RowType.Info) :
    extract_lesson_info e = Except.ok none := by
  unfold extract_lesson_info GridEntry.info GridEntry.info_maybe_removed extract_one_with_type extract_one
  simp [hpos, hcur, hty, extract_row_with_status, assert_row_type, ensure_not_removed, exceptIsOk]

/-- Claim C2, witness: a concrete entry with a current-side Info row and
empty (invalid) teacher and room positions projects to `Ok(None)`. -/
theorem info_row_current_side_yields_none_witness :
    extract_lesson_info currentInfoEntry = Except.ok none :=
  info_row_current_side_yields_none currentInfoEntry
    { current := some (mkRow RowType.Info "Notice"), removed := none }
    (mkRow RowType.Info "Notice") rfl rfl rfl

/-- Claim C3: the diff engine returns `(false, [])` exactly when the two
`LessonInfo` records are structurally equal, and reports `changed = true`
exactly when they differ. -/
theorem diff_false_iff_equal (old new : LessonInfo) :
    (send_potential_diffs old new = (false, []) ↔ old = new) ∧
    ((send_potential_diffs old new).1 = true ↔ old ≠ new) := by
  by_cases h : old = new <;> simp [send_potential_diffs, h]

/-- Claim C4: for records differing only in the lesson status, with the
new status Cancelled, the diff engine emits exactly one notification and
it is the Lesson Cancellation classification. -/
theorem cancelled_status_only_single_cancellation (old new : LessonInfo)
    (hst : old.status ≠ new.status) (hc : new.status = Status.Cancelled)
    (hsub : old.subject = new.subject) (hsubs : old.subject_status = new.subject_status)
    (hte : old.teacher = new.teacher) (htes : old.teacher_status = new.teacher_status)
    (hro : old.room = new.room) (hros : old.room_status = new.room_status)
    (hli : old.lesson_info = new.lesson_info) (hlt : old.lesson_text = new.lesson_text)
    (hsu : old.substitution_text = new.substitution_text) (hno : old.notes = new.notes)
    (htx : old.texts = new.texts) :
    (send_potential_diffs old new).2.map Notification.title = ["Lesson Cancellation"] := by
  have hne : old ≠ new := fun h => hst (congrArg LessonInfo.status h)
  rw [hc] at hst
  simp [send_potential_diffs, hne, hst, hc, hsub, hsubs, hte, htes, hro, hros, hli, hlt,
    hsu, hno, htx]

/-- Claim C4, witness: cancelling the concrete sample lesson emits exactly
the Lesson Cancellation notification. -/
theorem cancelled_status_only_single_cancellation_witness :
    (send_potential_diffs sampleLesson cancelledLesson).2.map Notification.title
      = ["Lesson Cancellation"] :=
  cancelled_status_only_single_cancellation sampleLesson cancelledLesson
    (by decide) rfl rfl rfl rfl rfl rfl rfl rfl rfl rfl rfl rfl

/-- Claim C5: a position slot sequence of length 0 or at least 2 always
fails row resolution, for any expected row type, and hence every accessor
built on `extract_one_with_type` fails on such a position. -/
theorem row_resolution_needs_single_slot (position : List RowWrapper) (t : RowType)
    (e : GridEntry) (hlen : position.length ≠ 1)
    (h1 : e.position1 = position) (h2 : e.position2 = position) (h3 : e.position3 = position) :
    (∃ msg, extract_one_with_type position t = Except.error msg) ∧
    (∃ msg, e.info_maybe_removed = Except.error msg) ∧
    (∃ msg, e.subject_maybe_removed = Except.error msg) ∧
    (∃ msg, e.teacher_maybe_removed = Except.error msg) ∧
    (∃ msg, e.room_maybe_removed = Except.error msg) := by
  refine ⟨extract_fails_of_len_ne_one position t hlen, ?_, ?_, ?_, ?_⟩
  · unfold GridEntry.info_maybe_removed
    rw [h1]
    exact extract_fails_of_len_ne_one position _ hlen
  · unfold GridEntry.subject_maybe_removed
    rw [h1]
    exact extract_fails_of_len_ne_one position _ hlen
  · unfold GridEntry.teacher_maybe_removed
    rw [h2]
    exact extract_fails_of_len_ne_one position _ hlen
  · unfold GridEntry.room_maybe_removed
    rw [h3]
    exact extract_fails_of_len_ne_one position _ hlen

/-- Claim C5, witness: the empty position sequence fails resolution and
all accessors of an entry whose positions are all empty fail. -/
theorem row_resolution_needs_single_slot_witness :
    (∃ msg, extract_one_with_type ([] : List RowWrapper) RowType.Subject = Except.error msg) ∧
    (∃ msg, emptyPositionsEntry.info_maybe_removed = Except.error msg) ∧
    (∃ msg, emptyPositionsEntry.subject_maybe_removed = Except.error msg) ∧
    (∃ msg, emptyPositionsEntry.teacher_maybe_removed = Except.error msg) ∧
    (∃ msg, emptyPositionsEntry.room_maybe_removed = Except.error msg) :=
  row_resolution_needs_single_slot [] RowType.Subject emptyPositionsEntry
    (by decide) rfl rfl rfl

/-- Claim C6: within a slot, a present current row is returned flagged not
removed (whatever the removed side holds); a row present only on the
removed side is returned by the non-strict path flagged removed while the
strict check rejects it; a slot with neither side fails. -/
theorem row_slot_current_preference (w : RowWrapper) :
    (∀ r, w.current = some r → extract_row_with_status w = Except.ok (r, false)) ∧
    (∀ r, w.current = none → w.removed = some r →
      extract_row_with_status w = Except.ok (r, true) ∧
      ensure_not_removed (r, true) = Except.error "Row was removed") ∧
    (w.current = none → w.removed = none →
      extract_row_with_status w = Except.error "RowWrapper has neither current nor removed Row") := by
  refine ⟨?_, ?_, ?_⟩
  · intro r h
    simp [extract_row_with_status, h]
  · intro r hc hr
    simp [extract_row_with_status, hc, hr, ensure_not_removed]
  · intro hc hr
    simp [extract_row_with_status, hc, hr]

/-- Claim C7: with a matching date but differing lesson-list lengths, the
step fails with the length-mismatch error, emits no notification and
leaves the state untouched; the driver loop increments the consecutive
failure counter on any failed cycle. -/
theorem same_date_length_mismatch_is_error (st : AppState) (prev lessons : List LessonInfo)
    (date : NaiveDate) (day : Day)
    (hprev : st.prev_lessons = some prev) (hdate : st.prev_date = date)
    (hex : extract_all_lessons day = Except.ok lessons)
    (hlen : prev.length ≠ lessons.length) :
    App.iteration st date (Except.ok day) = (st, [],
      Except.error ("Previous and current 'day' have a different number of lessons: "
        ++ toString prev.length ++ " vs  " ++ toString lessons.length)) ∧
    (∀ n, update_sequential_errors n true = n + 1) := by
  constructor
  · simp only [App.iteration]
    rw [hex]
    simp [hprev, hdate, hlen]
  · intro n
    rfl

/-- Claim C7, witness: a 0-lesson baseline against the 1-lesson sample day
for the same date raises the mismatch error and touches nothing. -/
theorem same_date_length_mismatch_is_error_witness :
    App.iteration mismatchState 1 (Except.ok sampleDay) = (mismatchState, [],
      Except.error ("Previous and current 'day' have a different number of lessons: "
        ++ toString ([] : List LessonInfo).length ++ " vs  " ++ toString [sampleLesson].length)) ∧
    (∀ n, update_sequential_errors n true = n + 1) :=
  same_date_length_mismatch_is_error mismatchState [] [sampleLesson] 1 sampleDay
    rfl rfl rfl (by decide)

/-- Claim C8: in every successful projection, each optional text field is
`none` exactly when its source trims to the empty string and is the
trimmed string otherwise, and the texts list is the entry's texts,
verbatim and in order. -/
theorem projection_normalizes_text_fields (e : GridEntry) (li : LessonInfo)
    (h : extract_lesson_info e = Except.ok (some li)) :
    (li.lesson_info = none ↔ str_trim e.lesson_info = "") ∧
    (str_trim e.lesson_info ≠ "" → li.lesson_info = some (str_trim e.lesson_info)) ∧
    (li.lesson_text = none ↔ str_trim e.lesson_text = "") ∧
    (str_trim e.lesson_text ≠ "" → li.lesson_text = some (str_trim e.lesson_text)) ∧
    (li.substitution_text = none ↔ str_trim e.substitution_text = "") ∧
    (str_trim e.substitution_text ≠ "" → li.substitution_text = some (str_trim e.substitution_text)) ∧
    (li.notes = none ↔ str_trim e.notes_all = "") ∧
    (str_trim e.notes_all ≠ "" → li.notes = some (str_trim e.notes_all)) ∧
    li.texts = e.texts.map EntryText.text := by
  unfold extract_lesson_info at h
  split at h
  · simp at h
  · split at h
    · simp at h
    · split at h
      · simp at h
      · split at h
        · simp at h
        · simp only [Except.ok.injEq, Option.some.injEq] at h
          subst h
          exact ⟨normalize_str_eq_none _, fun hh => normalize_str_of_ne _ hh,
            normalize_str_eq_none _, fun hh => normalize_str_of_ne _ hh,
            normalize_str_eq_none _, fun hh => normalize_str_of_ne _ hh,
            normalize_str_eq_none _, fun hh => normalize_str_of_ne _ hh, rfl⟩

/-- Claim C8, witness: the sample entry (lesson info "  hi ", every other
text field empty, no texts) projects with the contract instantiated. -/
theorem projection_normalizes_text_fields_witness :
    (sampleLesson.lesson_info = none ↔ str_trim sampleEntry.lesson_info = "") ∧
    (str_trim sampleEntry.lesson_info ≠ "" → sampleLesson.lesson_info = some (str_trim sampleEntry.lesson_info)) ∧
    (sampleLesson.lesson_text = none ↔ str_trim sampleEntry.lesson_text = "") ∧
    (str_trim sampleEntry.lesson_text ≠ "" → sampleLesson.lesson_text = some (str_trim sampleEntry.lesson_text)) ∧
    (sampleLesson.substitution_text = none ↔ str_trim sampleEntry.substitution_text = "") ∧
    (str_trim sampleEntry.substitution_text ≠ "" → sampleLesson.substitution_text = some (str_trim sampleEntry.substitution_text)) ∧
    (sampleLesson.notes = none ↔ str_trim sampleEntry.notes_all = "") ∧
    (str_trim sampleEntry.notes_all ≠ "" → sampleLesson.notes = some (str_trim sampleEntry.notes_all)) ∧
    sampleLesson.texts = sampleEntry.texts.map EntryText.text :=
  projection_normalizes_text_fields sampleEntry sampleLesson rfl

/-- Claim C9: after any prefix of cycle outcomes, five consecutive failed
cycles stop the driver loop for good (no outcome after them is ever run);
four failures followed by a success keep the loop running and reset the
consecutive-failure counter to zero. -/
theorem failure_threshold_stops_loop (pre rest : List Bool) :
    cyclesRun 0 (pre ++ (List.replicate 5 true ++ rest))
      = cyclesRun 0 (pre ++ List.replicate 5 true) ∧
    cyclesRun 0 ([true, true, true, true, false] ++ rest) = 5 + cyclesRun 0 rest ∧
    loopCounter 0 [true, true, true, true, false] = 0 := by
  refine ⟨?_, ?_, by decide⟩
  · exact cyclesRun_append_congr pre _ _
      (fun s => cyclesRun_replicate_true 5 s (by omega) rest) 0
  · simp [cyclesRun, update_sequential_errors]
    omega

/-- Claim C10: records equal in every field except the start timestamp make
the diff engine report a change while emitting no notification at all. -/
theorem datetime_only_change_silent (old new : LessonInfo)
    (hdt : old.datetime ≠ new.datetime)
    (hst : old.status = new.status)
    (hsub : old.subject = new.subject) (hsubs : old.subject_status = new.subject_status)
    (hte : old.teacher = new.teacher) (htes : old.teacher_status = new.teacher_status)
    (hro : old.room = new.room) (hros : old.room_status = new.room_status)
    (hli : old.lesson_info = new.lesson_info) (hlt : old.lesson_text = new.lesson_text)
    (hsu : old.substitution_text = new.substitution_text) (hno : old.notes = new.notes)
    (htx : old.texts = new.texts) :
    send_potential_diffs old new = (true, []) := by
  have hne : old ≠ new := fun h => hdt (congrArg LessonInfo.datetime h)
  simp [send_potential_diffs, hne, hst, hsub, hsubs, hte, htes, hro, hros, hli, hlt,
    hsu, hno, htx]

/-- Claim C10, witness: shifting only the start time of the concrete sample
lesson yields changed with an empty notification list. -/
theorem datetime_only_change_silent_witness :
    send_potential_diffs sampleLesson shiftedLesson = (true, []) :=
  datetime_only_change_silent sampleLesson shiftedLesson
    (by decide) rfl rfl rfl rfl rfl rfl rfl rfl rfl rfl rfl rfl

end WebUntis
